import Mathlib

/-!
Verification of the callback-to-future/stream correlation layer of the
corebluetooth-rs repository (crate corebluetooth-async).

The development is a shallow embedding of the relevant source functions:

* src/corebluetooth-async/src/error.rs — the error type and its kind.
* src/corebluetooth-async/src/util.rs — ScopeGuard/defer/defuse, and the
  broadcast/watch wrappers over the async-broadcast channel (capacity-bounded
  multi-consumer channel with overflow enabled and an inactive keep-alive
  receiver).
* src/corebluetooth-async/src/central_manager.rs — connect_with_options,
  cancel_peripheral_connection, scan, the delegate callbacks did_discover,
  did_connect, did_fail_to_connect, did_disconnect, and the registration
  helpers register_connecting and discoveries.
* src/corebluetooth-async/src/peripheral.rs — read_characteristic_value,
  ready_to_send_write_without_response, the delegate callback
  did_update_value_for_characteristic, and the accessor
  characteristic_value_updates.

Machine values are modelled as: peripheral / characteristic identities as Nat,
byte strings as List Nat.  Asynchronous executions are modelled by explicit
schedules of publish / receive steps on the channel state; each facade
operation becomes a pure function from the relevant delegate state and the
schedule of events to the observable outcome (value returned, imperative
platform calls issued, panics).
-/

namespace CorebluetoothAsync

/-! ## Error model (src/corebluetooth-async/src/error.rs) -/

/-- Model of corebluetooth::error::ErrorKind: the platform error discriminants
wrapped by the binding crate.  The CBError / CBATTError codes are modelled as
Nat. -/
inductive CBErrorKind where
  | bluetooth (code : Nat)
  | att (code : Nat)
  | other
  deriving DecidableEq

/-- Model of corebluetooth::Error: an OS error carrying its kind. -/
structure CBError where
  kind : CBErrorKind
  deriving DecidableEq

/-- Model of corebluetooth_async::error::ErrorKind (error.rs lines 19-30). -/
inductive ErrorKind where
  | bluetooth (code : Nat)
  | att (code : Nat)
  | canceled
  | lagged
  | other
  deriving DecidableEq

/-- Model of the private enum ErrorData (error.rs lines 33-36). -/
inductive ErrorData where
  | os (e : CBError)
  | simple (k : ErrorKind)
  deriving DecidableEq

/-- Model of corebluetooth_async::error::Error (error.rs lines 13-15). -/
structure Error where
  data : ErrorData
  deriving DecidableEq

/-- Model of the impl From CBErrorKind for ErrorKind (error.rs lines 111-119). -/
def ErrorKind.ofCB : CBErrorKind → ErrorKind
  | .bluetooth c => .bluetooth c
  | .att c => .att c
  | .other => .other

/-- Model of the impl From corebluetooth::Error for Error (error.rs lines 49-55). -/
def Error.ofCB (e : CBError) : Error := ⟨.os e⟩

/-- Model of the impl From oneshot::Canceled for Error (error.rs lines 73-77):
the awaited one-shot slot was dropped, yielding ErrorKind::Canceled. -/
def Error.ofCanceled : Error := ⟨.simple .canceled⟩

/-- Model of the impl From async_broadcast::RecvError for Error
(error.rs lines 79-83): a lagged broadcast receiver yields ErrorKind::Lagged. -/
def Error.ofLagged : Error := ⟨.simple .lagged⟩

/-- Model of Error::kind (error.rs lines 103-108). -/
def Error.kind (e : Error) : ErrorKind :=
  match e.data with
  | .os e => .ofCB e.kind
  | .simple k => k

deriving instance DecidableEq for Except

/-- Rust Result specialized to the crate Error, i.e. error::Result. -/
abbrev BTResult (α : Type) := Except Error α

/-! ## Platform peripheral state (objc2_core_bluetooth::CBPeripheralState) -/

/-- The CoreBluetooth peripheral connection state enum used by
connect_with_options and cancel_peripheral_connection. -/
inductive CBPeripheralState where
  | disconnected
  | connecting
  | connected
  | disconnecting
  deriving DecidableEq

/-! ## Scope guard (src/corebluetooth-async/src/util.rs lines 4-27) -/

/-- Model of util::ScopeGuard: a drop-time compensating action that can be
defused.  The field `armed` is true while the guard would run its closure on
drop; `defuse` consumes the guard without running it. -/
structure ScopeGuard where
  armed : Bool
  deriving DecidableEq

/-- Model of util::defer: a freshly created guard is armed. -/
def defer : ScopeGuard := ⟨true⟩

/-- Model of ScopeGuard::defuse: drops the closure without running it. -/
def ScopeGuard.defuse (_ : ScopeGuard) : ScopeGuard := ⟨false⟩

/-- Number of cancel_peripheral_connection calls issued when the guard built in
connect_with_options (central_manager.rs lines 94-98) is dropped: the closure
runs once if and only if the guard is still armed, and it issues the imperative
cancel call if and only if the peripheral state reads Connecting at that time. -/
def ScopeGuard.cancelCallsOnDrop (g : ScopeGuard) (stateAtDrop : CBPeripheralState) : Nat :=
  if g.armed = true ∧ stateAtDrop = .connecting then 1 else 0

/-! ## One-shot completion slots (futures_channel::oneshot) -/

/-- Status of one one-shot slot: pending (sender live, nothing sent), sent
(fulfilled with a value), or dropped (sender destroyed without sending; the
receiver observes oneshot::Canceled). -/
inductive SlotStatus (α : Type) where
  | pending
  | sent (v : α)
  | dropped
  deriving DecidableEq

/-- A store of one-shot slots, addressed by an allocation counter. -/
structure Oneshots (α : Type) where
  nextId : Nat
  status : Nat → SlotStatus α

/-- oneshot::channel(): allocate a fresh pending slot, return its id. -/
def Oneshots.alloc (s : Oneshots α) : Oneshots α × Nat :=
  ({ nextId := s.nextId + 1,
     status := fun i => if i = s.nextId then .pending else s.status i },
   s.nextId)

/-- Dropping a live (pending) sender: the receiver will observe Canceled.
This is what happens to the previous sender when HashMap::insert replaces it. -/
def Oneshots.dropSender (s : Oneshots α) (id : Nat) : Oneshots α :=
  { s with
    status := fun i => if i = id then .dropped else s.status i }

/-- Sender::send on a pending slot fulfills it; a slot that is no longer
pending has no live sender to send on, so its status is unchanged. -/
def Oneshots.send (s : Oneshots α) (id : Nat) (v : α) : Oneshots α :=
  { s with
    status := fun i =>
      if i = id then
        match s.status i with
        | .pending => .sent v
        | st => st
      else s.status i }

/-! ## Connecting map and connect correlation
(src/corebluetooth-async/src/central_manager.rs) -/

/-- Pointwise update of the connecting map (models HashMap::insert / remove:
at most one entry per key, insertion replaces). -/
def setConnecting (m : Nat → Option Nat) (k : Nat) (v : Option Nat) : Nat → Option Nat :=
  fun x => if x = k then v else m x

/-- The connect-correlation part of CentralManagerAsyncDelegate
(central_manager.rs lines 180-187): the `connecting` map from peripheral
identifier to the pending one-shot sender, here represented by slot ids into
an explicit slot store. -/
structure ConnDelegate where
  connecting : Nat → Option Nat
  slots : Oneshots (BTResult Unit)

/-- Model of CentralManagerAsyncDelegate::register_connecting
(central_manager.rs lines 302-311): create a oneshot channel and insert the
sender into the connecting map keyed by the peripheral identifier.
HashMap::insert returns the previously stored sender, which the source drops,
so its waiter observes Canceled. -/
def register_connecting (st : ConnDelegate) (p : Nat) : ConnDelegate × Nat :=
  let r := st.slots.alloc
  let slots :=
    match st.connecting p with
    | some old => r.1.dropSender old
    | none => r.1
  ({ connecting := setConnecting st.connecting p (some r.2), slots := slots }, r.2)

/-- Model of CentralManagerAsyncDelegate::did_connect (central_manager.rs
lines 227-232): remove the pending sender for the peripheral, if any, and
fulfill it with Ok(()). -/
def did_connect (st : ConnDelegate) (p : Nat) : ConnDelegate :=
  match st.connecting p with
  | some id =>
      { connecting := setConnecting st.connecting p none,
        slots := st.slots.send id (.ok ()) }
  | none => st

/-- Model of CentralManagerAsyncDelegate::did_fail_to_connect
(central_manager.rs lines 234-244): remove the pending sender for the
peripheral, if any, and fulfill it with the platform error. -/
def did_fail_to_connect (st : ConnDelegate) (p : Nat) (e : CBError) : ConnDelegate :=
  match st.connecting p with
  | some id =>
      { connecting := setConnecting st.connecting p none,
        slots := st.slots.send id (.error (Error.ofCB e)) }
  | none => st

/-- Awaiting the receiver returned by register_connecting, composed with the
`?` conversion in connect_with_options (receiver.await?): a fulfilled slot
yields its payload, a dropped slot yields the Canceled error, a pending slot
is still awaiting (none). -/
def awaitConnect (s : Oneshots (BTResult Unit)) (id : Nat) : Option (BTResult Unit) :=
  match s.status id with
  | .sent r => some r
  | .dropped => some (.error Error.ofCanceled)
  | .pending => none

/-! ## connect_with_options (central_manager.rs lines 87-104) -/

/-- How the await in connect_with_options terminates:
* fulfilled r — the delegate sent r on the registered slot and the caller
  observed it (receiver.await returned Ok(r));
* slotDropped — the registered sender was dropped unfulfilled (e.g. replaced
  by a racing registration), so receiver.await returned Err(Canceled) and the
  trailing question-mark operator exits early;
* droppedByCaller — the awaiting caller dropped the future before fulfillment. -/
inductive ConnectEnd where
  | fulfilled (r : BTResult Unit)
  | slotDropped
  | droppedByCaller
  deriving DecidableEq

/-- Observable outcome of one run of connect_with_options: how many times the
compensating cancel-connection imperative call was issued by the scope guard,
and what the caller got back (none when the caller dropped the future). -/
structure ConnectRun where
  cancelCalls : Nat
  returned : Option (BTResult Unit)
  deriving DecidableEq

/-- Model of CentralManagerAsync::connect_with_options (central_manager.rs
lines 87-104).  The imperative connect call is issued first; a scope guard is
armed whose drop issues cancel_peripheral_connection when the peripheral state
still reads Connecting; the registered completion is awaited.  On fulfillment
(success or platform failure) the guard is defused before returning; on the
early exit of the question-mark operator (slot dropped) and on caller drop the
guard is dropped armed.  `stateAtExit` is the peripheral state read by the
guard closure at the time the guard is dropped. -/
def connect_with_options (stateAtExit : CBPeripheralState) (e : ConnectEnd) : ConnectRun :=
  let guard := defer
  match e with
  | .fulfilled r =>
      let guard := guard.defuse
      { cancelCalls := guard.cancelCallsOnDrop stateAtExit, returned := some r }
  | .slotDropped =>
      { cancelCalls := guard.cancelCallsOnDrop stateAtExit,
        returned := some (.error Error.ofCanceled) }
  | .droppedByCaller =>
      { cancelCalls := guard.cancelCallsOnDrop stateAtExit, returned := none }

/-! ## Broadcast / watch channels
(src/corebluetooth-async/src/util.rs lines 29-61, over the async-broadcast
crate with overflow enabled).

The channel state records the capacity, the log of every message accepted by
try_broadcast since creation, and the number of active receivers.  A receiver
is its absolute position (index into the log of the next message to read).
Per the async-broadcast semantics used by util::broadcast:
* try_broadcast with zero active receivers fails with TrySendError::Inactive
  and the message is discarded (the keep-alive receiver held by BroadcastSender
  is inactive and does not retain messages);
* with overflow enabled a publish never fails on a full buffer: the oldest
  buffered message is dropped instead, so a message is readable by a receiver
  exactly while it is among the last `cap` accepted messages;
* Sender::new_receiver starts at the current tail: it receives only messages
  accepted after its creation;
* a receiver whose position has been overrun gets RecvError::Overflowed (the
  number of missed messages) and is repositioned at the oldest retained
  message. -/

/-- State of one broadcast channel. -/
structure BChan (α : Type) where
  cap : Nat
  log : List α
  active : Nat
  deriving DecidableEq

/-- Model of util::broadcast(cap): a fresh channel whose only receiver is the
inactive keep-alive one. -/
def broadcast (cap : Nat) : BChan α := { cap := cap, log := [], active := 0 }

/-- Model of util::watch(): broadcast(1). -/
def watch : BChan α := broadcast 1

/-- Model of Sender::try_broadcast: returns the new channel state and whether
the message was accepted (false models TrySendError::Inactive). -/
def BChan.try_broadcast (c : BChan α) (v : α) : BChan α × Bool :=
  if c.active = 0 then (c, false)
  else ({ c with log := c.log ++ [v] }, true)

/-- Model of Sender::new_receiver: one more active receiver, positioned at the
current tail of the log. -/
def BChan.new_receiver (c : BChan α) : BChan α × Nat :=
  ({ c with active := c.active + 1 }, c.log.length)

/-- Dropping an active receiver. -/
def BChan.dropReceiver (c : BChan α) : BChan α :=
  { c with active := c.active - 1 }

/-- Result of Receiver::recv: a message, RecvError::Overflowed with the number
of missed messages, or still pending (nothing buffered past this receiver). -/
inductive RecvResult (α : Type) where
  | ok (v : α)
  | overflowed (missed : Nat)
  | pending
  deriving DecidableEq

/-- Model of Receiver::recv for a receiver of channel `c` at position `pos`:
returns the result and the receiver position afterwards. -/
def BChan.recvAt (c : BChan α) (pos : Nat) : RecvResult α × Nat :=
  if h : pos < c.log.length then
    if pos + c.cap < c.log.length then
      (.overflowed (c.log.length - c.cap - pos), c.log.length - c.cap)
    else
      (.ok (c.log.get ⟨pos, h⟩), pos + 1)
  else (.pending, pos)

/-! ## cancel_peripheral_connection (central_manager.rs lines 110-131) -/

/-- Model of the DidDisconnect event (central_manager.rs lines 338-347); the
peripheral is represented by its identity, the timestamp by an optional Nat. -/
structure DidDisconnect where
  peripheral : Nat
  timestamp : Option Nat
  isReconnecting : Bool
  error : Option Error
  deriving DecidableEq

/-- One step of the interleaving seen by the disconnect receiver while
cancel_peripheral_connection awaits: either a did_disconnect callback
publishes an event into the disconnects topic (central_manager.rs lines
246-260), or the awaiting task runs one recv. -/
inductive DiscStep (α : Type) where
  | publish (d : α)
  | recvStep
  deriving DecidableEq

/-- Outcome of the receive loop in cancel_peripheral_connection: it returned a
matching disconnect event, it panicked because the while-let loop exited into
the unreachable arm (recv returned Err), or it is still awaiting at the end of
the modelled schedule. -/
inductive CancelOutcome where
  | returned (d : DidDisconnect)
  | panicked
  | waiting
  deriving DecidableEq

/-- Model of the receive loop in cancel_peripheral_connection
(central_manager.rs lines 120-127): repeatedly recv from the disconnects
receiver, skip events whose peripheral differs from `p`, return the first
matching event; if recv ever returns Err the while-let loop exits and the
function hits the unreachable arm, i.e. panics. -/
def disconnectLoop (p : Nat) :
    List (DiscStep DidDisconnect) → BChan DidDisconnect → Nat → CancelOutcome
  | [], _, _ => .waiting
  | .publish d :: rest, c, pos => disconnectLoop p rest (c.try_broadcast d).1 pos
  | .recvStep :: rest, c, pos =>
      match c.recvAt pos with
      | (.ok d, next) =>
          if d.peripheral = p then .returned d else disconnectLoop p rest c next
      | (.overflowed _, _) => .panicked
      | (.pending, next) => disconnectLoop p rest c next

/-- Observable outcome of one run of cancel_peripheral_connection: whether the
imperative cancel call was issued, whether the disconnects topic was
subscribed and awaited, and the loop outcome (none when not awaited, in which
case the function returned None immediately). -/
structure CancelRun where
  cancelCalled : Bool
  awaited : Bool
  outcome : Option CancelOutcome
  deriving DecidableEq

/-- Model of CentralManagerAsync::cancel_peripheral_connection
(central_manager.rs lines 110-131).  `state` is the peripheral state read at
entry, `p` the peripheral identity, `chan` the state of the shared disconnects
topic at entry, and `sched` the interleaving of disconnect publishes and recv
steps after the subscription. -/
def cancel_peripheral_connection (state : CBPeripheralState) (p : Nat)
    (chan : BChan DidDisconnect) (sched : List (DiscStep DidDisconnect)) : CancelRun :=
  let cancelCalled := state = CBPeripheralState.connecting ∨ state = CBPeripheralState.connected
  if state = CBPeripheralState.connected then
    let r := chan.new_receiver
    { cancelCalled := true, awaited := true,
      outcome := some (disconnectLoop p sched r.1 r.2) }
  else
    { cancelCalled := decide cancelCalled, awaited := false, outcome := none }

/-- Lag discipline of a schedule: at every recv step the receiver is within
the channel capacity of the tail, so recv never reports Overflowed. -/
def noLagFrom : List (DiscStep DidDisconnect) → BChan DidDisconnect → Nat → Bool
  | [], _, _ => true
  | .publish d :: rest, c, pos => noLagFrom rest (c.try_broadcast d).1 pos
  | .recvStep :: rest, c, pos =>
      decide (c.log.length ≤ pos + c.cap) && noLagFrom rest c (c.recvAt pos).2

/-! ## scan and the demand-gated discoveries slot
(central_manager.rs lines 153-167, 204-225, 321-325) -/

/-- Observable outcome of CentralManagerAsync::scan. -/
structure ScanRun where
  panicked : Bool
  scanCalled : Bool
  streamStarted : Bool
  deriving DecidableEq

/-- Model of CentralManagerAsync::scan (central_manager.rs lines 153-167): if
is_scanning() reports an active scan the function panics before anything else;
otherwise it issues the imperative scan call and starts the discoveries
stream. -/
def scan (isScanning : Bool) : ScanRun :=
  if isScanning then { panicked := true, scanCalled := false, streamStarted := false }
  else { panicked := false, scanCalled := true, streamStarted := true }

/-- State of the demand-gated discoveries slot together with its unbounded
mpsc channel: whether a sender is stored in the delegate's Cell, whether the
stream receiver is still alive, and the queue of items sent and not yet
consumed (an unbounded channel delivers them to the stream in this order,
without loss or duplication). -/
structure ScanStream (α : Type) where
  senderStored : Bool
  receiverAlive : Bool
  queued : List α
  deriving DecidableEq

/-- Model of CentralManagerAsyncDelegate::discoveries (central_manager.rs
lines 321-325): create a fresh unbounded channel and store its sender. -/
def discoveries (α : Type) : ScanStream α :=
  { senderStored := true, receiverAlive := true, queued := [] }

/-- Result of one did_discover callback: the new slot/channel state, the
number of stop-scan imperative calls issued, and whether the callback
panicked. -/
structure DiscoverStep (α : Type) where
  state : ScanStream α
  stopScanCalls : Nat
  panicked : Bool
  deriving DecidableEq

/-- Model of CentralManagerAsyncDelegate::did_discover (central_manager.rs
lines 204-225): take the stored sender if any (else no-op); attempt
unbounded_send, which succeeds exactly while the receiver is alive; on success
put the sender back, on failure leave the Cell empty and issue the imperative
stop-scan call.  No path panics. -/
def did_discover (s : ScanStream α) (v : α) : DiscoverStep α :=
  if s.senderStored = true then
    if s.receiverAlive = true then
      { state := { s with queued := s.queued ++ [v] }, stopScanCalls := 0, panicked := false }
    else
      { state := { s with senderStored := false }, stopScanCalls := 1, panicked := false }
  else
    { state := s, stopScanCalls := 0, panicked := false }

/-- A sequence of did_discover callbacks, threaded through the slot state. -/
def deliverAll (s : ScanStream α) : List α → ScanStream α
  | [] => s
  | v :: vs => deliverAll (did_discover s v).state vs

/-! ## Characteristic value updates
(src/corebluetooth-async/src/peripheral.rs lines 140-149, 329-349, 487-501) -/

/-- Payload of the per-characteristic value-update topic: error::Result of the
byte value. -/
abbrev BTVal := BTResult (List Nat)

/-- The characteristic_value_updates field of PeripheralAsyncDelegate
(peripheral.rs lines 243-244): a map from characteristic identity to its
broadcast topic. -/
abbrev TopicMap := Nat → Option (BChan BTVal)

/-- The empty topic map (Default for the delegate). -/
def emptyTopics : TopicMap := fun _ => none

/-- Pointwise update of the topic map (HashMap::insert / remove / entry). -/
def setTopic (m : TopicMap) (ch : Nat) (v : Option (BChan BTVal)) : TopicMap :=
  fun x => if x = ch then v else m x

/-- Reasons the did_update_value_for_characteristic callback can panic. -/
inductive PanicReason where
  | borrowMutWhileBorrowed
  | unwrapNone
  deriving DecidableEq

/-- Outcome of one did_update_value_for_characteristic callback: the new topic
map and the payload published to the topic (none when nothing was published),
or a panic. -/
inductive UpdateOutcome where
  | ok (topics : TopicMap) (published : Option BTVal)
  | panicked (r : PanicReason)

/-- Model of PeripheralAsyncDelegate::did_update_value_for_characteristic
(peripheral.rs lines 329-349).

The source does
  `if let Some(sender) = self.characteristic_value_updates.borrow().get(&ch)`;
the Ref guard from `.borrow()` is a temporary in the if-let scrutinee, so it
stays alive through the whole success arm (`sharedBorrows` is 1 there).  The
update payload is then computed as `result.map(some-closure)` where the closure
does `characteristic.value().unwrap()` — `valueAtCallback` is the platform
value read at that moment, and unwrapping none panics (only evaluated when
result is ok).  If the topic has no active receivers the source calls
`self.characteristic_value_updates.borrow_mut()` to remove the entry; the
RefCell borrow-discipline check `sharedBorrows = 0` fails there, which is a
BorrowMutError panic.  Otherwise the payload is broadcast to the topic. -/
def did_update_value_for_characteristic (topics : TopicMap) (ch : Nat)
    (valueAtCallback : Option (List Nat)) (result : Except CBError Unit) :
    UpdateOutcome :=
  let sharedBorrows : Nat := 1
  match topics ch with
  | none => .ok topics none
  | some sender =>
      match result, valueAtCallback with
      | .ok _, none => .panicked .unwrapNone
      | .ok _, some v =>
          if sender.active = 0 then
            if sharedBorrows = 0 then .ok (setTopic topics ch none) none
            else .panicked .borrowMutWhileBorrowed
          else
            .ok (setTopic topics ch (some (sender.try_broadcast (.ok v)).1))
              (some (.ok v))
      | .error e, _ =>
          if sender.active = 0 then
            if sharedBorrows = 0 then .ok (setTopic topics ch none) none
            else .panicked .borrowMutWhileBorrowed
          else
            .ok (setTopic topics ch
                  (some (sender.try_broadcast (.error (Error.ofCB e))).1))
              (some (.error (Error.ofCB e)))

/-- Model of PeripheralAsyncDelegate::characteristic_value_updates
(peripheral.rs lines 487-501): look up the characteristic's topic, creating a
capacity-16 broadcast topic on a vacant entry, and return a new receiver on
it.  Returns the updated map and the new receiver's position. -/
def characteristic_value_updates (m : TopicMap) (ch : Nat) : TopicMap × Nat :=
  match m ch with
  | some sender =>
      let r := sender.new_receiver
      (setTopic m ch (some r.1), r.2)
  | none =>
      let r := (broadcast 16 : BChan BTVal).new_receiver
      (setTopic m ch (some r.1), r.2)

/-- Model of PeripheralAsync::read_characteristic_value (peripheral.rs lines
140-149) correlated with one did_update_value_for_characteristic callback: the
imperative read is issued, a new receiver on the characteristic's topic is
taken, the callback fires with the platform value `valueAtCallback` current on
the characteristic object at that moment, and the awaited recv is resolved.
Returns none when the callback panicked, otherwise the recv result seen by the
caller. -/
def read_characteristic_value (m : TopicMap) (ch : Nat)
    (valueAtCallback : Option (List Nat)) (result : Except CBError Unit) :
    Option (RecvResult BTVal) :=
  let sub := characteristic_value_updates m ch
  match did_update_value_for_characteristic sub.1 ch valueAtCallback result with
  | .panicked _ => none
  | .ok topics _ =>
      match topics ch with
      | some c => some (c.recvAt sub.2).1
      | none => some .pending

/-! ## Write-without-response readiness gate (peripheral.rs lines 207-215) -/

/-- Outcome of ready_to_send_write_without_response before any awaiting:
either the fast path returned at once, or a new receiver was subscribed on the
readiness watch topic at the given position. -/
inductive ReadyOutcome where
  | immediate
  | subscribedAt (pos : Nat)
  deriving DecidableEq

/-- Model of PeripheralAsync::ready_to_send_write_without_response
(peripheral.rs lines 207-215): when can_send_write_without_repsonse() reports
capacity the function returns Ok(()) immediately; otherwise it subscribes to
the readiness watch topic and awaits one recv. -/
def ready_to_send_write_without_response (canSend : Bool) (chan : BChan Unit) :
    BChan Unit × ReadyOutcome :=
  if canSend then (chan, .immediate)
  else
    let r := chan.new_receiver
    (r.1, .subscribedAt r.2)

/-! ## Theorems -/

/-- C1: In connect_with_options, if the awaiting caller drops the future
before the completion is fulfilled and the peripheral state is still
Connecting, the compensating cancel-connection call is issued exactly once;
if the completion is fulfilled — with success or with a platform-reported
failure — the guard is defused, no cancel-connection call is issued, and the
fulfillment value is returned. -/
theorem connect_guard_spec (s : CBPeripheralState) (e : ConnectEnd) :
    (e = .droppedByCaller → s = .connecting →
      (connect_with_options s e).cancelCalls = 1) ∧
    (∀ r, e = .fulfilled r →
      (connect_with_options s e).cancelCalls = 0 ∧
      (connect_with_options s e).returned = some r) := by
  constructor
  · rintro rfl rfl
    simp [connect_with_options, defer, ScopeGuard.cancelCallsOnDrop]
  · rintro r rfl
    simp [connect_with_options, defer, ScopeGuard.defuse, ScopeGuard.cancelCallsOnDrop]

/-- Witness for connect_guard_spec at concrete inputs. -/
theorem connect_guard_spec_witness :
    (connect_with_options .connecting .droppedByCaller).cancelCalls = 1 ∧
    (connect_with_options .connecting (.fulfilled (.ok ()))).cancelCalls = 0 :=
  ⟨(connect_guard_spec .connecting .droppedByCaller).1 rfl rfl,
   ((connect_guard_spec .connecting (.fulfilled (.ok ()))).2 (.ok ()) rfl).1⟩

/-- C2: Two Connect registrations racing on the same peripheral identity P:
the second registration overwrites the first's pending slot in the connecting
map (which afterwards holds exactly the second slot), the first caller's await
resolves to an error of Canceled kind instead of pending forever, and a
subsequent did_connect fulfills only the second slot. -/
theorem connect_race_canceled (st : ConnDelegate) (p : Nat) :
    (register_connecting (register_connecting st p).1 p).1.connecting p
      = some (register_connecting (register_connecting st p).1 p).2 ∧
    (register_connecting (register_connecting st p).1 p).2
      = (register_connecting st p).2 + 1 ∧
    awaitConnect (register_connecting (register_connecting st p).1 p).1.slots
        (register_connecting st p).2
      = some (.error Error.ofCanceled) ∧
    Error.ofCanceled.kind = .canceled ∧
    (did_connect (register_connecting (register_connecting st p).1 p).1 p).slots.status
        (register_connecting (register_connecting st p).1 p).2
      = .sent (.ok ()) ∧
    (did_connect (register_connecting (register_connecting st p).1 p).1 p).slots.status
        (register_connecting st p).2
      = .dropped := by
  cases h0 : st.connecting p with
  | none =>
      simp [register_connecting, h0, setConnecting, Oneshots.alloc, Oneshots.dropSender,
        Oneshots.send, did_connect, awaitConnect, Error.kind, Error.ofCanceled]
  | some old =>
      by_cases h1 : old = st.slots.nextId + 1 <;>
        by_cases h2 : old = st.slots.nextId <;>
          simp [register_connecting, h0, setConnecting, Oneshots.alloc,
            Oneshots.dropSender, Oneshots.send, did_connect, awaitConnect,
            Error.kind, Error.ofCanceled, h1, h2]

/-- C4: Calling scan while the manager is already scanning panics before
issuing any imperative platform call: no scan-start call is made and no
discovery stream is started. -/
theorem scan_precondition_spec (isScanning : Bool) (h : isScanning = true) :
    (scan isScanning).panicked = true ∧ (scan isScanning).scanCalled = false ∧
    (scan isScanning).streamStarted = false := by
  subst h; simp [scan]

/-- Witness for scan_precondition_spec at the concrete input true. -/
theorem scan_precondition_spec_witness :
    (scan true).panicked = true ∧ (scan true).scanCalled = false ∧
    (scan true).streamStarted = false :=
  scan_precondition_spec true rfl

/-- C5: If the Scan stream's receiver has been dropped, the next did_discover
callback issues exactly one stop-scan imperative call, clears the stored
sender, does not panic, and delivers no stream item; from the cleared state a
later did_discover is a no-op; if the send succeeds the sender is restored for
subsequent discoveries. -/
theorem did_discover_receiver_dropped_spec {α : Type} (s : ScanStream α) (v w : α)
    (hs : s.senderStored = true) :
    (s.receiverAlive = false →
      (did_discover s v).stopScanCalls = 1 ∧
      (did_discover s v).panicked = false ∧
      (did_discover s v).state.senderStored = false ∧
      (did_discover s v).state.queued = s.queued ∧
      (did_discover (did_discover s v).state w).stopScanCalls = 0 ∧
      (did_discover (did_discover s v).state w).state.queued = s.queued) ∧
    (s.receiverAlive = true →
      (did_discover s v).state.senderStored = true ∧
      (did_discover s v).stopScanCalls = 0) := by
  constructor <;> intro h <;> simp [did_discover, hs, h]

/-- Witness for did_discover_receiver_dropped_spec at a concrete state. -/
theorem did_discover_receiver_dropped_spec_witness :
    (did_discover (⟨true, false, []⟩ : ScanStream Nat) 7).stopScanCalls = 1 ∧
    (did_discover (⟨true, false, []⟩ : ScanStream Nat) 7).state.senderStored = false :=
  ⟨((did_discover_receiver_dropped_spec (⟨true, false, []⟩ : ScanStream Nat)
      7 8 rfl).1 rfl).1,
   (((did_discover_receiver_dropped_spec (⟨true, false, []⟩ : ScanStream Nat)
      7 8 rfl).1 rfl).2.2).1⟩

/-- C6: While the Scan stream's receiver is alive, a sequence of did_discover
callbacks with values V1..VN queues exactly V1..VN in order on the unbounded
stream channel — no duplication, no drops — and leaves the sender stored and
the receiver alive. -/
theorem scan_stream_in_order_spec {α : Type} (s : ScanStream α) (vs : List α)
    (h1 : s.senderStored = true) (h2 : s.receiverAlive = true) :
    (deliverAll s vs).queued = s.queued ++ vs ∧
    (deliverAll s vs).senderStored = true ∧
    (deliverAll s vs).receiverAlive = true := by
  induction vs generalizing s with
  | nil => simp [deliverAll, h1, h2]
  | cons v vs ih =>
      have hstep : (did_discover s v).state = { s with queued := s.queued ++ [v] } := by
        simp [did_discover, h1, h2]
      rw [deliverAll, hstep]
      have hrec := ih { s with queued := s.queued ++ [v] } h1 h2
      simpa using hrec

/-- Witness for scan_stream_in_order_spec on a freshly started stream. -/
theorem scan_stream_in_order_spec_witness :
    (deliverAll (discoveries Nat) [1, 2, 3]).queued = [1, 2, 3] :=
  (scan_stream_in_order_spec (discoveries Nat) [1, 2, 3] rfl rfl).1

/-- The receive loop only ever returns an event whose peripheral matches. -/
theorem disconnectLoop_matches (p : Nat) :
    ∀ (sched : List (DiscStep DidDisconnect)) (c : BChan DidDisconnect)
      (pos : Nat) (d : DidDisconnect),
      disconnectLoop p sched c pos = .returned d → d.peripheral = p := by
  intro sched
  induction sched with
  | nil => intro c pos d h; simp [disconnectLoop] at h
  | cons s rest ih =>
      intro c pos d h
      cases s with
      | publish e => exact ih _ _ _ h
      | recvStep =>
          rw [disconnectLoop] at h
          rcases hr : c.recvAt pos with ⟨res, next⟩
          rw [hr] at h
          cases res with
          | ok e =>
              by_cases he : e.peripheral = p
              · simp only [he, if_true] at h
                cases h
                exact he
              · simp only [he, if_false] at h
                exact ih _ _ _ h
          | overflowed m => simp at h
          | pending => exact ih _ _ _ (by simpa using h)

/-- If no event published in the schedule matches and no event buffered past
the receiver position matches, the receive loop never returns. -/
theorem disconnectLoop_no_match (p : Nat) :
    ∀ (sched : List (DiscStep DidDisconnect)) (c : BChan DidDisconnect) (pos : Nat),
      (∀ d, DiscStep.publish d ∈ sched → d.peripheral ≠ p) →
      (∀ d ∈ c.log.drop pos, d.peripheral ≠ p) →
      pos ≤ c.log.length →
      ∀ d, disconnectLoop p sched c pos ≠ .returned d := by
  intro sched
  induction sched with
  | nil => intro c pos _ _ _ d h; simp [disconnectLoop] at h
  | cons s rest ih =>
      intro c pos hsched hlog hpos d h
      have hrest : ∀ d, DiscStep.publish d ∈ rest → d.peripheral ≠ p :=
        fun d hd => hsched d (List.mem_cons_of_mem _ hd)
      cases s with
      | publish e =>
          rw [disconnectLoop] at h
          by_cases hact : c.active = 0
          · rw [show (c.try_broadcast e).1 = c by
              simp [BChan.try_broadcast, hact]] at h
            exact ih c pos hrest hlog hpos d h
          · rw [show (c.try_broadcast e).1 = { c with log := c.log ++ [e] } by
              simp [BChan.try_broadcast, hact]] at h
            refine ih _ pos hrest ?_ ?_ d h
            · intro x hx
              simp only at hx
              rw [List.drop_append_of_le_length hpos] at hx
              rcases List.mem_append.1 hx with hx | hx
              · exact hlog x hx
              · have hxe : x = e := by simpa using hx
                subst hxe
                exact hsched x (List.mem_cons_self _ _)
            · simpa using Nat.le_succ_of_le hpos
      | recvStep =>
          rw [disconnectLoop] at h
          by_cases hlt : pos < c.log.length
          · by_cases hov : pos + c.cap < c.log.length
            · rw [show c.recvAt pos =
                  (.overflowed (c.log.length - c.cap - pos), c.log.length - c.cap) by
                simp [BChan.recvAt, hlt, hov]] at h
              simp at h
            · have hre : c.recvAt pos = (.ok (c.log.get ⟨pos, hlt⟩), pos + 1) := by
                simp [BChan.recvAt, hlt, hov]
              rw [hre] at h
              have hmem : c.log.get ⟨pos, hlt⟩ ∈ c.log.drop pos := by
                rw [List.get_eq_getElem, List.drop_eq_getElem_cons hlt]
                exact List.mem_cons_self _ _
              have hne : (c.log.get ⟨pos, hlt⟩).peripheral ≠ p := hlog _ hmem
              simp only [hne, if_false] at h
              refine ih c (pos + 1) hrest ?_ hlt d h
              intro x hx
              exact hlog x (List.drop_subset_drop_left _ (Nat.le_succ pos) hx)
          · rw [show c.recvAt pos = (.pending, pos) by
              simp [BChan.recvAt, hlt]] at h
            exact ih c pos hrest hlog hpos d (by simpa using h)

/-- C3: cancel_peripheral_connection on a Connected peripheral issues the
imperative cancel call and awaits the disconnects topic; the await only ever
returns an event for that exact peripheral, discarding interleaved disconnect
events of other peripherals (if no matching event arrives it does not return);
if the state is neither Connecting nor Connected the operation returns None
immediately, with no imperative cancel call and no await. -/
theorem cancel_peripheral_connection_spec (state : CBPeripheralState) (p : Nat)
    (chan : BChan DidDisconnect) (sched : List (DiscStep DidDisconnect)) :
    (state ≠ .connecting ∧ state ≠ .connected →
      cancel_peripheral_connection state p chan sched =
        { cancelCalled := false, awaited := false, outcome := none }) ∧
    (state = .connected →
      (cancel_peripheral_connection state p chan sched).cancelCalled = true ∧
      (cancel_peripheral_connection state p chan sched).awaited = true ∧
      (∀ d, (cancel_peripheral_connection state p chan sched).outcome
          = some (.returned d) → d.peripheral = p) ∧
      ((∀ d, DiscStep.publish d ∈ sched → d.peripheral ≠ p) →
        ∀ d, (cancel_peripheral_connection state p chan sched).outcome
          ≠ some (.returned d))) := by
  constructor
  · rintro ⟨h1, h2⟩
    simp [cancel_peripheral_connection, h1, h2]
  · rintro rfl
    refine ⟨by simp [cancel_peripheral_connection], by simp [cancel_peripheral_connection], ?_, ?_⟩
    · intro d hd
      simp [cancel_peripheral_connection] at hd
      exact disconnectLoop_matches p sched _ _ d hd
    · intro hsched d hd
      simp [cancel_peripheral_connection] at hd
      refine disconnectLoop_no_match p sched chan.new_receiver.1
        chan.new_receiver.2 hsched ?_ ?_ d hd
      · simp [BChan.new_receiver]
      · simp [BChan.new_receiver]

/-- Witness for cancel_peripheral_connection_spec: the two-peripheral scenario
(B's disconnect interleaved first is skipped; A's disconnect is returned), and
the immediate-return case on a disconnected peripheral. -/
theorem cancel_peripheral_connection_spec_witness :
    cancel_peripheral_connection .disconnected 0 (broadcast 16) [] =
      { cancelCalled := false, awaited := false, outcome := none } ∧
    (cancel_peripheral_connection .connected 0 (broadcast 16)
      [.publish ⟨1, none, false, none⟩, .recvStep,
       .publish ⟨0, none, false, none⟩, .recvStep]).cancelCalled = true ∧
    (cancel_peripheral_connection .connected 0 (broadcast 16)
      [.publish ⟨1, none, false, none⟩, .recvStep,
       .publish ⟨0, none, false, none⟩, .recvStep]).outcome
      = some (.returned ⟨0, none, false, none⟩) :=
  ⟨(cancel_peripheral_connection_spec .disconnected 0 (broadcast 16) []).1
      (by constructor <;> intro h <;> cases h),
   ((cancel_peripheral_connection_spec .connected 0 (broadcast 16)
      [.publish ⟨1, none, false, none⟩, .recvStep,
       .publish ⟨0, none, false, none⟩, .recvStep]).2 rfl).1,
   by decide⟩

/-- C10 counterexample: the Err branch of the disconnect receive loop is
reachable.  With the capacity-16 disconnects topic, seventeen disconnect
broadcasts for another peripheral delivered before the awaiting task runs its
next recv overrun the subscriber; recv then reports Overflowed, the while-let
loop exits, and cancel_peripheral_connection executes the unreachable arm,
i.e. panics. -/
theorem cancel_connection_lag_panics :
    (cancel_peripheral_connection .connected 0 (broadcast 16)
      (List.replicate 17 (DiscStep.publish ⟨1, none, false, none⟩)
        ++ [DiscStep.recvStep])).outcome
      = some CancelOutcome.panicked := by decide

/-- If the subscriber never falls more than the channel capacity behind the
tail at any recv, the receive loop never reaches the unreachable arm. -/
theorem disconnectLoop_noLag (p : Nat) :
    ∀ (sched : List (DiscStep DidDisconnect)) (c : BChan DidDisconnect) (pos : Nat),
      noLagFrom sched c pos = true →
      disconnectLoop p sched c pos ≠ CancelOutcome.panicked := by
  intro sched
  induction sched with
  | nil => intro c pos _ h; simp [disconnectLoop] at h
  | cons s rest ih =>
      intro c pos hnl h
      cases s with
      | publish e =>
          rw [disconnectLoop] at h
          rw [noLagFrom] at hnl
          exact ih _ _ hnl h
      | recvStep =>
          rw [disconnectLoop] at h
          rw [noLagFrom, Bool.and_eq_true, decide_eq_true_eq] at hnl
          by_cases hlt : pos < c.log.length
          · have hov : ¬pos + c.cap < c.log.length := by omega
            have hre : c.recvAt pos = (.ok (c.log.get ⟨pos, hlt⟩), pos + 1) := by
              simp [BChan.recvAt, hlt, hov]
            rw [hre] at h
            have hnl2 := hnl.2
            rw [hre] at hnl2
            by_cases he : (c.log.get ⟨pos, hlt⟩).peripheral = p
            · simp only [he, if_true] at h
              cases h
            · simp only [he, if_false] at h
              exact ih c (pos + 1) hnl2 h
          · have hre : c.recvAt pos = (.pending, pos) := by
              simp [BChan.recvAt, hlt]
            rw [hre] at h
            have hnl2 := hnl.2
            rw [hre] at hnl2
            exact ih c pos hnl2 (by simpa using h)

/-- C10 amended: the Err branch of the disconnect receive loop is unreachable
provided the subscriber never lags more than the topic's capacity behind the
publisher at any recv (the schedule satisfies noLagFrom); under that
discipline cancel_peripheral_connection never panics. -/
theorem cancel_connection_no_lag_no_panic (state : CBPeripheralState) (p : Nat)
    (chan : BChan DidDisconnect) (sched : List (DiscStep DidDisconnect))
    (h : noLagFrom sched chan.new_receiver.1 chan.new_receiver.2 = true) :
    (cancel_peripheral_connection state p chan sched).outcome
      ≠ some CancelOutcome.panicked := by
  by_cases hs : state = .connected
  · subst hs
    intro hcontra
    simp [cancel_peripheral_connection] at hcontra
    exact disconnectLoop_noLag p sched chan.new_receiver.1 chan.new_receiver.2 h hcontra
  · simp [cancel_peripheral_connection, hs]

/-- Witness for cancel_connection_no_lag_no_panic at a concrete well-paced
schedule. -/
theorem cancel_connection_no_lag_no_panic_witness :
    noLagFrom [DiscStep.publish ⟨1, none, false, none⟩, DiscStep.recvStep]
        ((broadcast 16 : BChan DidDisconnect).new_receiver).1
        ((broadcast 16 : BChan DidDisconnect).new_receiver).2 = true ∧
    (cancel_peripheral_connection .connected 0 (broadcast 16)
        [DiscStep.publish ⟨1, none, false, none⟩, DiscStep.recvStep]).outcome
      ≠ some CancelOutcome.panicked :=
  ⟨by decide,
   cancel_connection_no_lag_no_panic .connected 0 (broadcast 16)
     [DiscStep.publish ⟨1, none, false, none⟩, DiscStep.recvStep] (by decide)⟩

/-- C7: For a successful did_update_value_for_characteristic callback
correlated to an awaiting read_characteristic_value, the value returned to
the caller is exactly the value read from the characteristic object while the
callback handler runs — for any prior topic-map state, so in particular never
a value cached in the correlation layer before or at request issuance. -/
theorem read_after_notify_spec (m : TopicMap) (ch : Nat) (v : List Nat)
    (hcap : ∀ c, m ch = some c → 1 ≤ c.cap) :
    read_characteristic_value m ch (some v) (.ok ()) = some (.ok (.ok v)) := by
  cases hm : m ch with
  | none =>
      simp [read_characteristic_value, characteristic_value_updates, hm,
        did_update_value_for_characteristic, setTopic, BChan.new_receiver,
        BChan.try_broadcast, broadcast, BChan.recvAt]
  | some c =>
      have hc := hcap c hm
      have hnov : ¬ c.log.length + c.cap < c.log.length + 1 := by omega
      simp [read_characteristic_value, characteristic_value_updates, hm,
        did_update_value_for_characteristic, setTopic, BChan.new_receiver,
        BChan.try_broadcast, BChan.recvAt, hnov]

/-- Witness for read_after_notify_spec on the empty topic map. -/
theorem read_after_notify_spec_witness :
    read_characteristic_value emptyTopics 0 (some [1, 2]) (.ok ())
      = some (.ok (.ok [1, 2])) :=
  read_after_notify_spec emptyTopics 0 [1, 2]
    (fun c h => by simp [emptyTopics] at h)

/-- C8 (code bug): a did_update_value_for_characteristic callback for a
characteristic whose registered topic has zero active receivers does not
garbage-collect the topic entry; it panics with a RefCell BorrowMutError,
because the shared borrow taken in the if-let scrutinee is still held when
borrow_mut is called to remove the entry.  Evaluated at a concrete failing
input: a topic whose only subscriber has been dropped, a successful result,
and a current characteristic value. -/
theorem did_update_gc_borrow_panic :
    did_update_value_for_characteristic
        (setTopic emptyTopics 0
          (some (((broadcast 16 : BChan BTVal).new_receiver).1.dropReceiver)))
        0 (some [1]) (.ok ())
      = .panicked .borrowMutWhileBorrowed := rfl

/-- C9 counterexample: a receiver subscribed on the readiness watch topic
after a value has been published does not observe that value: the publish is
accepted (an independent active subscriber exists), yet the new receiver
created by ready_to_send_write_without_response starts at the tail and its
first recv is still pending. -/
theorem watch_not_retained_counterexample :
    (((watch : BChan Unit).new_receiver).1.try_broadcast ()).2 = true ∧
    (ready_to_send_write_without_response false
        ((((watch : BChan Unit).new_receiver).1.try_broadcast ()).1)).2
      = ReadyOutcome.subscribedAt 1 ∧
    ((ready_to_send_write_without_response false
        ((((watch : BChan Unit).new_receiver).1.try_broadcast ()).1)).1.recvAt 1).1
      = RecvResult.pending := by decide

/-- C9 amended: a receiver created by subscribe observes only values published
after its subscription; ready_to_send_write_without_response returns
immediately when the platform reports capacity at the check, and otherwise its
subscribed receiver obtains the first readiness value published after the
subscription. -/
theorem ready_gate_spec (canSend : Bool) (chan : BChan Unit) (hcap : 1 ≤ chan.cap) :
    (canSend = true →
      ready_to_send_write_without_response canSend chan = (chan, .immediate)) ∧
    (canSend = false →
      (ready_to_send_write_without_response canSend chan).2
        = .subscribedAt chan.log.length ∧
      ∀ v, ((((ready_to_send_write_without_response canSend chan).1.try_broadcast v).1).recvAt
          chan.log.length).1 = .ok v) := by
  constructor
  · rintro rfl
    simp [ready_to_send_write_without_response]
  · rintro rfl
    have hnov : ¬ chan.log.length + chan.cap < chan.log.length + 1 := by omega
    simp [ready_to_send_write_without_response, BChan.new_receiver,
      BChan.try_broadcast, BChan.recvAt, hnov]

/-- Witness for ready_gate_spec on the readiness watch topic. -/
theorem ready_gate_spec_witness :
    ready_to_send_write_without_response true (watch : BChan Unit)
      = ((watch : BChan Unit), .immediate) ∧
    (ready_to_send_write_without_response false (watch : BChan Unit)).2
      = .subscribedAt 0 :=
  ⟨(ready_gate_spec true (watch : BChan Unit) (by decide)).1 rfl,
   ((ready_gate_spec false (watch : BChan Unit) (by decide)).2 rfl).1⟩

end CorebluetoothAsync
